import Mathlib

/-!
A shallow embedding of the ODF-LVM readiness validators of the
assisted-service repository, together with proofs about their behaviour.

Two sibling validator variants exist in the source:
  * the `lvm` variant, from `internal/operators/lvm/lvm_operator.go`;
  * the `odflvm` variant, from the unnamed operator file together with
    `internal/operators/odf-lvm/validations.go`.

Go `int64` values are embedded as `Int` (the quantities involved — disk
counts, core counts, byte counts — never approach the 64-bit boundary in
any code path modelled here, so overflow wrapping is not modelled).
Collaborator functions whose bodies live outside the packaged sources
(JSON inventory unmarshalling, semantic-version parsing, unit
conversions, the single-node test) are modelled from the specification
and are marked as such in their doc comments.
-/

/-- Drive type of a disk. In the source this is a string-valued type
compared against the SSD and HDD constants; any other string falls in
the third case. -/
inductive DriveType where
  | HDD
  | SSD
  | Other (s : String)
deriving DecidableEq, Repr

/-- One disk of a host inventory (`models.Disk`), restricted to the
fields the validators read. -/
structure Disk where
  ID : String
  SizeBytes : Int
  DriveType : DriveType
deriving DecidableEq, Repr

/-- CPU section of an inventory (`models.CPU`), restricted to the field
the validators read. -/
structure CPU where
  Count : Int
deriving DecidableEq, Repr

/-- Memory section of an inventory (`models.Memory`), restricted to the
field the validators read. -/
structure Memory where
  UsableBytes : Int
deriving DecidableEq, Repr

/-- A host hardware inventory (`models.Inventory`), restricted to the
fields the validators read. -/
structure Inventory where
  CPU : CPU
  Memory : Memory
  Disks : List Disk
deriving DecidableEq, Repr

/-- The inventory field of a host is a JSON string in the source. We
abstract it by its observable outcomes: the empty string (inventory not
yet reported), a non-empty string that fails to unmarshal (carrying the
unmarshalling error text), or a non-empty string that unmarshals to an
inventory. -/
inductive IncomingInventory where
  | empty
  | unparsable (errMsg : String)
  | parsed (inv : Inventory)
deriving DecidableEq, Repr

/-- Whether the host's inventory string is the empty string
(`host.Inventory == ""` in the source). -/
def IncomingInventory.isEmptyStr : IncomingInventory → Bool
  | .empty => true
  | _ => false

/-- A host (`models.Host`), restricted to the fields the validators
read. -/
structure Host where
  ID : String
  InstallationDiskID : String
  Inventory : IncomingInventory
deriving DecidableEq, Repr

/-- Modelled from the spec: `common.UnmarshalInventory` is not under
src. It parses the host's JSON inventory string; we model it on the
abstracted inventory field, failing exactly on the non-empty unparsable
strings (the validators only call it after ruling out the empty
string; for completeness the empty string also fails to parse, as an
empty input is not a JSON document). -/
def UnmarshalInventory : IncomingInventory → Except String Inventory
  | .empty => .error "unexpected end of JSON input"
  | .unparsable errMsg => .error errMsg
  | .parsed inv => .ok inv

/-- High-availability mode of a cluster: `Full` (multi-node) or `None`
(single-node). -/
inductive HighAvailabilityMode where
  | Full
  | None
deriving DecidableEq, Repr

/-- A semantic version, per the spec's data model: `major.minor.patch`
with the usual lexicographic ordering. -/
structure SemVersion where
  major : Nat
  minor : Nat
  patch : Nat
deriving DecidableEq, Repr

/-- Modelled from the spec: the ordering of the external go-version
library, restricted to `major.minor.patch` triples as the spec's §9
prescribes — lexicographic comparison, never string comparison. -/
def SemVersion.LessThan (a b : SemVersion) : Bool :=
  if a.major ≠ b.major then decide (a.major < b.major)
  else if a.minor ≠ b.minor then decide (a.minor < b.minor)
  else decide (a.patch < b.patch)

/-- A version string is abstracted by its parse outcome: either it is
malformed (carrying the parser's error text) or it denotes a semantic
version. -/
inductive VersionString where
  | malformed (errMsg : String)
  | wellFormed (v : SemVersion)
deriving DecidableEq, Repr

/-- Modelled from the spec: `version.NewVersion` of the external
go-version library, acting on the abstracted version strings. -/
def NewVersion : VersionString → Except String SemVersion
  | .malformed errMsg => .error errMsg
  | .wellFormed v => .ok v

/-- A cluster (`common.Cluster`), restricted to the fields the
validators read. -/
structure Cluster where
  ID : String
  HighAvailabilityMode : HighAvailabilityMode
  OpenshiftVersion : VersionString
  Hosts : List Host
deriving DecidableEq, Repr

/-- Modelled from the spec: `common.IsSingleNodeCluster` is not under
src. A cluster is single-node iff its high-availability mode is `None`
(§3, glossary). -/
def IsSingleNodeCluster (c : Cluster) : Bool :=
  match c.HighAvailabilityMode with
  | .None => true
  | .Full => false

/-- Modelled from the spec: `conversions.MibToBytes` is not under src;
the single shared MiB-to-bytes conversion utility (§4.3). -/
def MibToBytes (mib : Int) : Int := mib * 1048576

/-- Modelled from the spec: `conversions.BytesToMib` is not under src;
the inverse conversion used when reporting memory amounts in MiB. -/
def BytesToMib (bytes : Int) : Int := bytes / 1048576

/-- Status of one validation verdict (`api.ValidationStatus`). -/
inductive ValidationStatus where
  | Success
  | Failure
  | Pending
deriving DecidableEq, Repr

/-- One validation verdict (`api.ValidationResult`). -/
structure ValidationResult where
  Status : ValidationStatus
  ValidationId : String
  Reasons : List String := []
deriving DecidableEq, Repr

/-- The two validation-ID strings an operator exposes. The concrete
string constants live in the models package, outside src; the
validators only ever copy them into verdicts, so we keep them as
parameters. `clusterID` is what `GetClusterValidationID` returns and
`hostID` what `GetHostValidationID` returns. -/
structure ValidationIDs where
  clusterID : String
  hostID : String
deriving DecidableEq, Repr

/-- Quantitative host requirements
(`models.ClusterHostRequirementsDetails`), restricted to the fields the
validators read. -/
structure ClusterHostRequirementsDetails where
  CPUCores : Int := 0
  RAMMib : Int := 0
deriving DecidableEq, Repr

/-- Host-type requirements (`models.HostTypeHardwareRequirements`). -/
structure HostTypeHardwareRequirements where
  Quantitative : ClusterHostRequirementsDetails
  Qualitative : List String := []
deriving DecidableEq, Repr

/-- Master/worker requirements wrapper
(`models.HostTypeHardwareRequirementsWrapper`). -/
structure HostTypeHardwareRequirementsWrapper where
  Master : HostTypeHardwareRequirements
  Worker : Option HostTypeHardwareRequirements := none
deriving DecidableEq, Repr

/-- Operator hardware requirements
(`models.OperatorHardwareRequirements`). -/
structure OperatorHardwareRequirements where
  OperatorName : String
  Dependencies : List String
  Requirements : HostTypeHardwareRequirementsWrapper
deriving DecidableEq, Repr

namespace odflvm

/-- Configuration of the odflvm variant
(`internal/operators/odf-lvm/validations.go`). -/
structure Config where
  ODFLVMCPUPerHost : Int
  ODFLVMMemoryMiBPerHost : Int
deriving DecidableEq, Repr

/-- `getValidDiskCount` of `internal/operators/odf-lvm/validations.go`:
count all disks of drive type ssd or hdd, of non-zero size, other than
the installation disk. -/
def getValidDiskCount (disks : List Disk) (installationDiskID : String) : Int :=
  disks.foldl
    (fun countDisks disk =>
      if (disk.DriveType = DriveType.SSD ∨ disk.DriveType = DriveType.HDD) ∧
          installationDiskID ≠ disk.ID ∧ disk.SizeBytes ≠ 0 then
        countDisks + 1
      else
        countDisks)
    0

/-- `GetDependencies` of the odflvm variant: always the empty list. -/
def GetDependencies : List String := []

/-- `ValidateCluster` of the odflvm variant: single-node clusters pass,
everything else fails; both verdicts carry an explicitly empty reasons
list. Second component is the returned Go `error` value. -/
def ValidateCluster (ids : ValidationIDs) (cluster : Cluster) :
    ValidationResult × Option String :=
  if IsSingleNodeCluster cluster then
    ({ Status := .Success, ValidationId := ids.clusterID, Reasons := [] }, none)
  else
    ({ Status := .Failure, ValidationId := ids.clusterID, Reasons := [] }, none)

/-- `GetHostRequirements` of the odflvm variant: the quantitative
requirements are read from configuration alone; no error path. -/
def GetHostRequirements (cfg : Config) (_cluster : Cluster) (_host : Host) :
    Except String ClusterHostRequirementsDetails :=
  .ok { CPUCores := cfg.ODFLVMCPUPerHost, RAMMib := cfg.ODFLVMMemoryMiBPerHost }

/-- `ValidateHost` of the odflvm variant. Second component is the
returned Go `error` value. -/
def ValidateHost (ids : ValidationIDs) (cfg : Config) (cluster : Cluster) (host : Host) :
    ValidationResult × Option String :=
  if host.Inventory.isEmptyStr then
    ({ Status := .Pending, ValidationId := ids.hostID,
       Reasons := ["Missing Inventory in the host"] }, none)
  else
    match UnmarshalInventory host.Inventory with
    | .error err =>
        ({ Status := .Failure, ValidationId := ids.hostID,
           Reasons := ["Failed to get inventory from host"] }, some err)
    | .ok inventory =>
        let diskCount := getValidDiskCount inventory.Disks host.InstallationDiskID
        if diskCount = 0 then
          ({ Status := .Failure, ValidationId := ids.hostID,
             Reasons := ["Insufficient disks, ODF LVM requires at least one non-bootable disk on the host"] },
           none)
        else
          match GetHostRequirements cfg cluster host with
          | .error err =>
              let hostId := host.ID
              ({ Status := .Failure, ValidationId := ids.hostID,
                 Reasons := [s!"Failed to get host requirements for host with id {hostId}", err] },
               some err)
          | .ok requirements =>
              let cpu := requirements.CPUCores
              let cpuCount := inventory.CPU.Count
              if cpuCount < cpu then
                ({ Status := .Failure, ValidationId := ids.hostID,
                   Reasons := [s!"Insufficient CPU to deploy ODF LVM. Required CPU count is {cpu} but found {cpuCount} "] },
                 none)
              else
                let mem := requirements.RAMMib
                let memBytes := MibToBytes mem
                if inventory.Memory.UsableBytes < memBytes then
                  let usableMemory := BytesToMib inventory.Memory.UsableBytes
                  ({ Status := .Failure, ValidationId := ids.hostID,
                     Reasons := [s!"Insufficient memory to deploy ODF LVM. Required memory is {mem} MiB but found {usableMemory} MiB"] },
                   none)
                else
                  ({ Status := .Success, ValidationId := ids.hostID }, none)

end odflvm

namespace lvm

/-- Configuration of the lvm variant. The `LvmCPUPerHost` and
`LvmMemoryPerHostMiB` field names appear in
`internal/operators/lvm/lvm_operator.go`; the config struct itself is
not under src. `LvmMinDiskSizeBytes` is modelled from the spec (§4.2,
§9): this sibling's disk filter additionally enforces a minimum disk
size. -/
structure Config where
  LvmCPUPerHost : Int
  LvmMemoryPerHostMiB : Int
  LvmMinDiskSizeBytes : Int
deriving DecidableEq, Repr

/-- Modelled from the spec: the lvm variant's own `getValidDiskCount`
is not under src (only its caller is). Per §4.2 and §9 it applies the
base eligibility rule (drive type SSD or HDD, not the installation
disk, non-zero size) and additionally requires a minimum disk size,
signalling an error for a size-policy violation instead of silently
excluding the disk. Returns the count and the Go `error` value. -/
def getValidDiskCount (cfg : Config) (disks : List Disk) (installationDiskID : String) :
    Int × Option String :=
  disks.foldl
    (fun acc disk =>
      if (disk.DriveType = DriveType.SSD ∨ disk.DriveType = DriveType.HDD) ∧
          installationDiskID ≠ disk.ID ∧ disk.SizeBytes ≠ 0 then
        if disk.SizeBytes < cfg.LvmMinDiskSizeBytes then
          let diskId := disk.ID
          (acc.1, some s!"Disk {diskId} is smaller than the minimum required size for ODF LVM")
        else
          (acc.1 + 1, acc.2)
      else
        acc)
    (0, none)

/-- `GetDependencies` of the lvm variant: always the empty list. -/
def GetDependencies (_cluster : Cluster) : List String := []

/-- `LvmMinOpenshiftVersion`: the fixed minimum supported version
constant. The constant's definition is not under src; the spec's §4.3
failure message and §8 scenario fix it at 4.12.0. -/
def LvmMinOpenshiftVersion : VersionString :=
  .wellFormed { major := 4, minor := 12, patch := 0 }

/-- `ValidateCluster` of the lvm variant, generalised over the
minimum-version constant it reads (the top-level entry point below
fixes it at `LvmMinOpenshiftVersion`). Second component is the returned
Go `error` value — note every branch returns nil. -/
def ValidateClusterAux (ids : ValidationIDs) (minVS : VersionString) (cluster : Cluster) :
    ValidationResult × Option String :=
  if !IsSingleNodeCluster cluster then
    ({ Status := .Failure, ValidationId := ids.clusterID,
       Reasons := ["ODF LVM operator is only supported for Single Node Openshift deployment"] },
     none)
  else
    match NewVersion cluster.OpenshiftVersion with
    | .error err =>
        ({ Status := .Failure, ValidationId := ids.hostID, Reasons := [err] }, none)
    | .ok ocpVersion =>
        match NewVersion minVS with
        | .error err =>
            ({ Status := .Failure, ValidationId := ids.hostID, Reasons := [err] }, none)
        | .ok minOpenshiftVersionForLvm =>
            if ocpVersion.LessThan minOpenshiftVersionForLvm then
              ({ Status := .Failure, ValidationId := ids.clusterID,
                 Reasons := ["ODF LVM operator is only supported for openshift versions 4.12.0 and above"] },
               none)
            else
              ({ Status := .Success, ValidationId := ids.clusterID }, none)

/-- `ValidateCluster` of the lvm variant
(`internal/operators/lvm/lvm_operator.go`). -/
def ValidateCluster (ids : ValidationIDs) (cluster : Cluster) :
    ValidationResult × Option String :=
  ValidateClusterAux ids LvmMinOpenshiftVersion cluster

/-- `GetPreflightRequirements` of the lvm variant: requirements that
can be determined with cluster data only; built from configuration, no
error path. -/
def GetPreflightRequirements (_ids : ValidationIDs) (cfg : Config) (cluster : Cluster) :
    Except String OperatorHardwareRequirements :=
  .ok
    { OperatorName := "lvm"
      Dependencies := GetDependencies cluster
      Requirements :=
        { Master :=
            { Quantitative :=
                { CPUCores := cfg.LvmCPUPerHost, RAMMib := cfg.LvmMemoryPerHostMiB }
              Qualitative :=
                ["At least 1 non-installation disk wih no partitions or filesystems"] }
          Worker := some { Quantitative := {} } } }

/-- `GetHostRequirements` of the lvm variant: extracts the master
quantitative requirements from the preflight requirements, propagating
any error. The host argument is ignored by the source. -/
def GetHostRequirements (ids : ValidationIDs) (cfg : Config) (cluster : Cluster)
    (_host : Host) : Except String ClusterHostRequirementsDetails :=
  match GetPreflightRequirements ids cfg cluster with
  | .error err => .error err
  | .ok preflightRequirements => .ok preflightRequirements.Requirements.Master.Quantitative

/-- `ValidateHost` of the lvm variant
(`internal/operators/lvm/lvm_operator.go`). Second component is the
returned Go `error` value. -/
def ValidateHost (ids : ValidationIDs) (cfg : Config) (cluster : Cluster) (host : Host) :
    ValidationResult × Option String :=
  if host.Inventory.isEmptyStr then
    ({ Status := .Pending, ValidationId := ids.hostID,
       Reasons := ["Missing Inventory in the host"] }, none)
  else
    match UnmarshalInventory host.Inventory with
    | .error err =>
        ({ Status := .Failure, ValidationId := ids.hostID,
           Reasons := ["Failed to get inventory from host"] }, some err)
    | .ok inventory =>
        match getValidDiskCount cfg inventory.Disks host.InstallationDiskID with
        | (_, some diskErr) =>
            ({ Status := .Failure, ValidationId := ids.hostID, Reasons := [diskErr] }, none)
        | (diskCount, none) =>
            if diskCount = 0 then
              ({ Status := .Failure, ValidationId := ids.hostID,
                 Reasons := ["Insufficient disks, ODF LVM requires at least one non-installation disk on the host"] },
               none)
            else
              match GetHostRequirements ids cfg cluster host with
              | .error err =>
                  let hostId := host.ID
                  ({ Status := .Failure, ValidationId := ids.hostID,
                     Reasons := [s!"Failed to get the host requirements for host with id {hostId}", err] },
                   some err)
              | .ok requirements =>
                  let cpu := requirements.CPUCores
                  let cpuCount := inventory.CPU.Count
                  if cpuCount < cpu then
                    ({ Status := .Failure, ValidationId := ids.hostID,
                       Reasons := [s!"Insufficient CPU to deploy ODF LVM. The required CPU count is {cpu} but found {cpuCount}"] },
                     none)
                  else
                    let memory := requirements.RAMMib
                    let memoryBytes := MibToBytes memory
                    if inventory.Memory.UsableBytes < memoryBytes then
                      let usableMemory := BytesToMib inventory.Memory.UsableBytes
                      ({ Status := .Failure, ValidationId := ids.hostID,
                         Reasons := [s!"Insufficient memory to deploy ODF LVM. The required memory is {memory} MiB but found {usableMemory} MiB"] },
                       none)
                    else
                      ({ Status := .Success, ValidationId := ids.hostID }, none)

end lvm

/-! ## Helper lemmas and concrete fixtures -/

/-- The odflvm disk filter is a `countP` over the eligibility predicate,
in the source's own left-to-right phrasing. -/
theorem odflvm_getValidDiskCount_eq_countP (disks : List Disk) (installationDiskID : String) :
    odflvm.getValidDiskCount disks installationDiskID =
      ((disks.countP fun disk =>
        decide ((disk.DriveType = DriveType.SSD ∨ disk.DriveType = DriveType.HDD) ∧
          installationDiskID ≠ disk.ID ∧ disk.SizeBytes ≠ 0) : Nat) : Int) := by
  unfold odflvm.getValidDiskCount
  suffices h : ∀ (l : List Disk) (n : Int),
      l.foldl (fun countDisks disk =>
        if (disk.DriveType = DriveType.SSD ∨ disk.DriveType = DriveType.HDD) ∧
            installationDiskID ≠ disk.ID ∧ disk.SizeBytes ≠ 0 then
          countDisks + 1
        else countDisks) n =
      n + ((l.countP fun disk =>
        decide ((disk.DriveType = DriveType.SSD ∨ disk.DriveType = DriveType.HDD) ∧
          installationDiskID ≠ disk.ID ∧ disk.SizeBytes ≠ 0) : Nat) : Int) by
    rw [h]; omega
  intro l
  induction l with
  | nil => intro n; simp
  | cons d t ih =>
      intro n
      rw [List.foldl_cons, List.countP_cons]
      by_cases hd : (d.DriveType = DriveType.SSD ∨ d.DriveType = DriveType.HDD) ∧
          installationDiskID ≠ d.ID ∧ d.SizeBytes ≠ 0
      · rw [if_pos hd, ih]
        simp [hd]
        omega
      · rw [if_neg hd, ih]
        simp [hd]

/-- When a parsed inventory passes the disk, CPU and RAM checks, the
lvm `ValidateHost` reaches its final branch: a `Success` verdict with no
reasons and a nil error. -/
theorem lvm_ValidateHost_success_of_thresholds (ids : ValidationIDs) (cfg : lvm.Config)
    (cluster : Cluster) (host : Host) (inv : Inventory) (n : Int)
    (hInv : host.Inventory = IncomingInventory.parsed inv)
    (hdc : lvm.getValidDiskCount cfg inv.Disks host.InstallationDiskID = (n, none))
    (hn : 1 ≤ n)
    (hcpu : cfg.LvmCPUPerHost ≤ inv.CPU.Count)
    (hmem : MibToBytes cfg.LvmMemoryPerHostMiB ≤ inv.Memory.UsableBytes) :
    lvm.ValidateHost ids cfg cluster host =
      ({ Status := ValidationStatus.Success, ValidationId := ids.hostID, Reasons := [] },
       none) := by
  unfold lvm.ValidateHost
  rw [hInv]
  simp only [IncomingInventory.isEmptyStr, UnmarshalInventory, hdc,
    lvm.GetHostRequirements, lvm.GetPreflightRequirements]
  rw [if_neg (by omega : ¬ n = 0)]
  rw [if_neg (by omega : ¬ inv.CPU.Count < cfg.LvmCPUPerHost),
    if_neg (by omega : ¬ inv.Memory.UsableBytes < MibToBytes cfg.LvmMemoryPerHostMiB)]
  simp

/-- When a parsed inventory passes the disk, CPU and RAM checks, the
odflvm `ValidateHost` reaches its final branch: a `Success` verdict with
no reasons and a nil error. -/
theorem odflvm_ValidateHost_success_of_thresholds (ids : ValidationIDs) (cfg : odflvm.Config)
    (cluster : Cluster) (host : Host) (inv : Inventory)
    (hInv : host.Inventory = IncomingInventory.parsed inv)
    (hn : 1 ≤ odflvm.getValidDiskCount inv.Disks host.InstallationDiskID)
    (hcpu : cfg.ODFLVMCPUPerHost ≤ inv.CPU.Count)
    (hmem : MibToBytes cfg.ODFLVMMemoryMiBPerHost ≤ inv.Memory.UsableBytes) :
    odflvm.ValidateHost ids cfg cluster host =
      ({ Status := ValidationStatus.Success, ValidationId := ids.hostID, Reasons := [] },
       none) := by
  unfold odflvm.ValidateHost
  rw [hInv]
  simp only [IncomingInventory.isEmptyStr, UnmarshalInventory, odflvm.GetHostRequirements]
  rw [if_neg (by omega :
    ¬ odflvm.getValidDiskCount inv.Disks host.InstallationDiskID = 0)]
  rw [if_neg (by omega : ¬ inv.CPU.Count < cfg.ODFLVMCPUPerHost),
    if_neg (by omega : ¬ inv.Memory.UsableBytes < MibToBytes cfg.ODFLVMMemoryMiBPerHost)]
  simp

/-- Concrete validation IDs used by the witness theorems. -/
def ids0 : ValidationIDs := { clusterID := "cluster-validation-id", hostID := "host-validation-id" }

/-- Concrete lvm configuration: 1 CPU core, 1200 MiB RAM, no minimum
disk size. -/
def cfgL : lvm.Config := { LvmCPUPerHost := 1, LvmMemoryPerHostMiB := 1200, LvmMinDiskSizeBytes := 0 }

/-- Concrete odflvm configuration: 1 CPU core, 1200 MiB RAM. -/
def cfgO : odflvm.Config := { ODFLVMCPUPerHost := 1, ODFLVMMemoryMiBPerHost := 1200 }

/-- A 20 GB HDD that serves as the installation disk of the fixtures. -/
def disk1 : Disk := { ID := "/dev/disk/by-id/test-disk-1", SizeBytes := 20000000000, DriveType := .HDD }

/-- A 40 GB SSD, not the installation disk. -/
def disk2 : Disk := { ID := "/dev/disk/by-id/test-disk-2", SizeBytes := 40000000000, DriveType := .SSD }

/-- An inventory with 12 cores, 32 GiB usable memory and both fixture
disks. -/
def inv0 : Inventory := { CPU := { Count := 12 }, Memory := { UsableBytes := 34359738368 }, Disks := [disk1, disk2] }

/-- A host with ample resources whose installation disk is `disk1`. -/
def host0 : Host := { ID := "h1", InstallationDiskID := "/dev/disk/by-id/test-disk-1", Inventory := .parsed inv0 }

/-- A single-node cluster at version 4.12.0. -/
def cluster0 : Cluster :=
  { ID := "c1", HighAvailabilityMode := .None,
    OpenshiftVersion := .wellFormed { major := 4, minor := 12, patch := 0 }, Hosts := [host0] }

/-- A multi-node (full high-availability) cluster at version 4.12.0. -/
def clusterFull : Cluster :=
  { ID := "c2", HighAvailabilityMode := .Full,
    OpenshiftVersion := .wellFormed { major := 4, minor := 12, patch := 0 }, Hosts := [host0] }

/-- A single-node cluster whose version string fails to parse. -/
def clusterBadVersion : Cluster :=
  { ID := "c3", HighAvailabilityMode := .None,
    OpenshiftVersion := .malformed "Malformed version: foo", Hosts := [host0] }

/-- An inventory whose only disk is the installation disk, hence zero
eligible disks. -/
def invNoDisks : Inventory := { CPU := { Count := 12 }, Memory := { UsableBytes := 34359738368 }, Disks := [disk1] }

/-- A host whose inventory has zero eligible disks. -/
def hostNoDisks : Host := { ID := "h2", InstallationDiskID := "/dev/disk/by-id/test-disk-1", Inventory := .parsed invNoDisks }

/-- An inventory sitting exactly at the fixture configuration's CPU and
RAM thresholds: 1 core and 1200 MiB of usable memory. -/
def invBoundary : Inventory := { CPU := { Count := 1 }, Memory := { UsableBytes := 1258291200 }, Disks := [disk2] }

/-- A host sitting exactly at the CPU and RAM thresholds. -/
def hostBoundary : Host := { ID := "h3", InstallationDiskID := "/dev/disk/by-id/test-disk-1", Inventory := .parsed invBoundary }

/-! ## Claims -/

/-- C1: for every host whose inventory is present and parses, whose
eligible disk count per the variant's disk filter is at least 1 (for the
lvm variant this includes the filter raising no size-policy error),
whose CPU core count meets the required cores and whose usable memory
meets the required RAM converted from MiB to bytes, `ValidateHost`
returns a `Success` verdict with empty reasons — in both the lvm and the
odflvm variant. -/
theorem claim_C1_thresholds_met_success :
    (∀ (ids : ValidationIDs) (cfg : lvm.Config) (cluster : Cluster) (host : Host)
        (inv : Inventory) (n : Int),
      host.Inventory = IncomingInventory.parsed inv →
      lvm.getValidDiskCount cfg inv.Disks host.InstallationDiskID = (n, none) →
      1 ≤ n →
      cfg.LvmCPUPerHost ≤ inv.CPU.Count →
      MibToBytes cfg.LvmMemoryPerHostMiB ≤ inv.Memory.UsableBytes →
      lvm.ValidateHost ids cfg cluster host =
        ({ Status := ValidationStatus.Success, ValidationId := ids.hostID, Reasons := [] },
         none)) ∧
    (∀ (ids : ValidationIDs) (cfg : odflvm.Config) (cluster : Cluster) (host : Host)
        (inv : Inventory),
      host.Inventory = IncomingInventory.parsed inv →
      1 ≤ odflvm.getValidDiskCount inv.Disks host.InstallationDiskID →
      cfg.ODFLVMCPUPerHost ≤ inv.CPU.Count →
      MibToBytes cfg.ODFLVMMemoryMiBPerHost ≤ inv.Memory.UsableBytes →
      odflvm.ValidateHost ids cfg cluster host =
        ({ Status := ValidationStatus.Success, ValidationId := ids.hostID, Reasons := [] },
         none)) := by
  constructor
  · intro ids cfg cluster host inv n hInv hdc hn hcpu hmem
    exact lvm_ValidateHost_success_of_thresholds ids cfg cluster host inv n hInv hdc hn hcpu hmem
  · intro ids cfg cluster host inv hInv hn hcpu hmem
    exact odflvm_ValidateHost_success_of_thresholds ids cfg cluster host inv hInv hn hcpu hmem

/-- C1 witness: the sufficient-resources fixture host yields `Success`
with empty reasons in both variants. -/
theorem claim_C1_witness :
    lvm.ValidateHost ids0 cfgL cluster0 host0 =
      ({ Status := ValidationStatus.Success, ValidationId := ids0.hostID, Reasons := [] },
       none) ∧
    odflvm.ValidateHost ids0 cfgO cluster0 host0 =
      ({ Status := ValidationStatus.Success, ValidationId := ids0.hostID, Reasons := [] },
       none) :=
  ⟨claim_C1_thresholds_met_success.1 ids0 cfgL cluster0 host0 inv0 1 rfl rfl
      (by decide) (by decide) (by decide),
   claim_C1_thresholds_met_success.2 ids0 cfgO cluster0 host0 inv0 rfl
      (by decide) (by decide) (by decide)⟩

/-- C2: in both variants, `ValidateHost` returns a `Pending` verdict
exactly when the host's inventory is absent (the empty string); with a
non-empty inventory the result is never `Pending`, and with an absent
inventory it is never `Success` or `Failure`. -/
theorem claim_C2_pending_iff_inventory_absent :
    (∀ (ids : ValidationIDs) (cfg : lvm.Config) (cluster : Cluster) (host : Host),
      (lvm.ValidateHost ids cfg cluster host).1.Status = ValidationStatus.Pending ↔
        host.Inventory = IncomingInventory.empty) ∧
    (∀ (ids : ValidationIDs) (cfg : odflvm.Config) (cluster : Cluster) (host : Host),
      (odflvm.ValidateHost ids cfg cluster host).1.Status = ValidationStatus.Pending ↔
        host.Inventory = IncomingInventory.empty) := by
  constructor
  · intro ids cfg cluster host
    rcases host with ⟨hID, instID, hinv⟩
    unfold lvm.ValidateHost
    cases hinv with
    | empty => simp [IncomingInventory.isEmptyStr]
    | unparsable e => simp [IncomingInventory.isEmptyStr, UnmarshalInventory]
    | parsed inv =>
        rcases hdc : lvm.getValidDiskCount cfg inv.Disks instID with ⟨n, e⟩
        simp only [IncomingInventory.isEmptyStr, UnmarshalInventory, hdc]
        cases e
        all_goals
          simp [lvm.GetHostRequirements, lvm.GetPreflightRequirements]
        split_ifs <;> simp
  · intro ids cfg cluster host
    rcases host with ⟨hID, instID, hinv⟩
    unfold odflvm.ValidateHost
    cases hinv with
    | empty => simp [IncomingInventory.isEmptyStr]
    | unparsable e => simp [IncomingInventory.isEmptyStr, UnmarshalInventory]
    | parsed inv =>
        simp only [IncomingInventory.isEmptyStr, UnmarshalInventory,
          odflvm.GetHostRequirements]
        split_ifs <;> simp_all

/-- C3: in both variants, a host whose inventory parses but contains
zero eligible disks gets a `Failure` verdict, for every CPU core count
and memory amount: the CPU and RAM checks are never reached. For the
odflvm variant the verdict is exactly the insufficient-disks failure
with a nil error. -/
theorem claim_C3_zero_disks_failure :
    (∀ (ids : ValidationIDs) (cfg : lvm.Config) (cluster : Cluster) (host : Host)
        (inv : Inventory),
      host.Inventory = IncomingInventory.parsed inv →
      (lvm.getValidDiskCount cfg inv.Disks host.InstallationDiskID).1 = 0 →
      (lvm.ValidateHost ids cfg cluster host).1.Status = ValidationStatus.Failure) ∧
    (∀ (ids : ValidationIDs) (cfg : odflvm.Config) (cluster : Cluster) (host : Host)
        (inv : Inventory),
      host.Inventory = IncomingInventory.parsed inv →
      odflvm.getValidDiskCount inv.Disks host.InstallationDiskID = 0 →
      odflvm.ValidateHost ids cfg cluster host =
        ({ Status := ValidationStatus.Failure, ValidationId := ids.hostID,
           Reasons := ["Insufficient disks, ODF LVM requires at least one non-bootable disk on the host"] },
         none)) := by
  constructor
  · intro ids cfg cluster host inv hInv h0
    unfold lvm.ValidateHost
    rw [hInv]
    rcases hdc : lvm.getValidDiskCount cfg inv.Disks host.InstallationDiskID with ⟨n, e⟩
    rw [hdc] at h0
    simp only [IncomingInventory.isEmptyStr, UnmarshalInventory, hdc]
    cases e with
    | some err => simp
    | none =>
        have hn : n = 0 := by simpa using h0
        subst hn
        simp
  · intro ids cfg cluster host inv hInv h0
    unfold odflvm.ValidateHost
    rw [hInv]
    simp only [IncomingInventory.isEmptyStr, UnmarshalInventory]
    rw [if_pos h0]
    simp

/-- C3 witness: the fixture host whose only disk is its installation
disk fails the disk check in both variants. -/
theorem claim_C3_witness :
    (lvm.ValidateHost ids0 cfgL cluster0 hostNoDisks).1.Status = ValidationStatus.Failure ∧
    odflvm.ValidateHost ids0 cfgO cluster0 hostNoDisks =
      ({ Status := ValidationStatus.Failure, ValidationId := ids0.hostID,
         Reasons := ["Insufficient disks, ODF LVM requires at least one non-bootable disk on the host"] },
       none) :=
  ⟨claim_C3_zero_disks_failure.1 ids0 cfgL cluster0 hostNoDisks invNoDisks rfl (by decide),
   claim_C3_zero_disks_failure.2 ids0 cfgO cluster0 hostNoDisks invNoDisks rfl (by decide)⟩

/-- C4: the odflvm disk filter returns exactly the number of disks of
drive type HDD or SSD, of non-zero size, whose id differs from the
installation disk id; hence the count is invariant under permutation of
the disk sequence and never exceeds the sequence's length. -/
theorem claim_C4_disk_filter_count :
    (∀ (disks : List Disk) (installationDiskID : String),
      odflvm.getValidDiskCount disks installationDiskID =
        ((disks.countP fun d =>
          decide ((d.DriveType = DriveType.HDD ∨ d.DriveType = DriveType.SSD) ∧
            d.SizeBytes ≠ 0 ∧ d.ID ≠ installationDiskID) : Nat) : Int)) ∧
    (∀ (disks₁ disks₂ : List Disk) (installationDiskID : String),
      disks₁.Perm disks₂ →
        odflvm.getValidDiskCount disks₁ installationDiskID =
          odflvm.getValidDiskCount disks₂ installationDiskID) ∧
    (∀ (disks : List Disk) (installationDiskID : String),
      odflvm.getValidDiskCount disks installationDiskID ≤ disks.length) := by
  have key : ∀ (disks : List Disk) (installationDiskID : String),
      odflvm.getValidDiskCount disks installationDiskID =
        ((disks.countP fun d =>
          decide ((d.DriveType = DriveType.HDD ∨ d.DriveType = DriveType.SSD) ∧
            d.SizeBytes ≠ 0 ∧ d.ID ≠ installationDiskID) : Nat) : Int) := by
    intro disks installationDiskID
    rw [odflvm_getValidDiskCount_eq_countP]
    congr 1
    apply List.countP_congr
    intro d _
    simp only [decide_eq_true_eq]
    constructor
    · rintro ⟨h1, h2, h3⟩; exact ⟨h1.symm, h3, h2.symm⟩
    · rintro ⟨h1, h2, h3⟩; exact ⟨h1.symm, h3.symm, h2⟩
  refine ⟨key, ?_, ?_⟩
  · intro disks₁ disks₂ installationDiskID hperm
    rw [key, key]
    congr 1
    exact hperm.countP_eq _
  · intro disks installationDiskID
    rw [key]
    have := List.countP_le_length (p := fun d =>
      decide ((d.DriveType = DriveType.HDD ∨ d.DriveType = DriveType.SSD) ∧
        d.SizeBytes ≠ 0 ∧ d.ID ≠ installationDiskID)) (l := disks)
    exact_mod_cast this

/-- C4 witness: swapping the two fixture disks leaves the eligible-disk
count unchanged. -/
theorem claim_C4_witness :
    odflvm.getValidDiskCount [disk1, disk2] "/dev/disk/by-id/test-disk-1" =
      odflvm.getValidDiskCount [disk2, disk1] "/dev/disk/by-id/test-disk-1" :=
  claim_C4_disk_filter_count.2.1 [disk1, disk2] [disk2, disk1]
    "/dev/disk/by-id/test-disk-1" (List.Perm.swap disk2 disk1 [])

/-- A single-node cluster at version 4.10.0, which parses but lies
below the 4.12.0 minimum. -/
def cluster410 : Cluster :=
  { ID := "c4", HighAvailabilityMode := .None,
    OpenshiftVersion := .wellFormed { major := 4, minor := 10, patch := 0 }, Hosts := [host0] }

/-- C5 counterexample: the odflvm `ValidateCluster` — one of the two
implementations the claim covers — returns `Success` for a single-node
cluster at version 4.10.0, which parses but is below the 4.12.0
minimum, so "Success iff single-node and parsed version at least the
minimum" fails on this validator. -/
theorem claim_C5_counterexample :
    ¬ (((odflvm.ValidateCluster ids0 cluster410).1.Status = ValidationStatus.Success) ↔
      (IsSingleNodeCluster cluster410 = true ∧
        ∃ v minV, NewVersion cluster410.OpenshiftVersion = Except.ok v ∧
          NewVersion lvm.LvmMinOpenshiftVersion = Except.ok minV ∧
          v.LessThan minV = false)) := by
  intro h
  rcases h.mp rfl with ⟨-, v, minV, hv, hm, hlt⟩
  simp only [cluster410, lvm.LvmMinOpenshiftVersion, NewVersion, Except.ok.injEq] at hv hm
  rw [← hv, ← hm] at hlt
  exact absurd hlt (by decide)

/-- C5 amended: the lvm `ValidateCluster` returns `Success` exactly when
the cluster is single-node and its platform version parses to a semantic
version not below the fixed minimum supported version, and in every
other case — non-single-node topology, unparsable version, or version
below minimum — its status is `Failure`; the odflvm `ValidateCluster`,
however, performs no version check: it returns `Success` exactly when
the cluster is single-node, and `Failure` otherwise. Neither validator
ever returns `Pending`. -/
theorem claim_C5_cluster_success_iff_amended :
    (∀ (ids : ValidationIDs) (cluster : Cluster),
      ((lvm.ValidateCluster ids cluster).1.Status = ValidationStatus.Success ↔
        (IsSingleNodeCluster cluster = true ∧
          ∃ v minV, NewVersion cluster.OpenshiftVersion = Except.ok v ∧
            NewVersion lvm.LvmMinOpenshiftVersion = Except.ok minV ∧
            v.LessThan minV = false)) ∧
      ((lvm.ValidateCluster ids cluster).1.Status = ValidationStatus.Success ∨
        (lvm.ValidateCluster ids cluster).1.Status = ValidationStatus.Failure)) ∧
    (∀ (ids : ValidationIDs) (cluster : Cluster),
      ((odflvm.ValidateCluster ids cluster).1.Status = ValidationStatus.Success ↔
        IsSingleNodeCluster cluster = true) ∧
      ((odflvm.ValidateCluster ids cluster).1.Status = ValidationStatus.Success ∨
        (odflvm.ValidateCluster ids cluster).1.Status = ValidationStatus.Failure)) := by
  constructor
  · intro ids cluster
    rcases cluster with ⟨cID, mode, ver, hosts⟩
    cases mode <;> cases ver <;>
      simp only [lvm.ValidateCluster, lvm.ValidateClusterAux, IsSingleNodeCluster,
        NewVersion, lvm.LvmMinOpenshiftVersion] <;>
      split_ifs <;> simp_all
  · intro ids cluster
    rcases cluster with ⟨cID, mode, ver, hosts⟩
    cases mode <;>
      simp only [odflvm.ValidateCluster, IsSingleNodeCluster] <;>
      split_ifs <;> simp_all

/-- C6: all numeric threshold comparisons in `ValidateHost` are strict
less-than, so a host sitting exactly at the CPU and RAM requirements
passes both checks and gets a `Success` verdict — in both variants. -/
theorem claim_C6_boundary_equality_success :
    (∀ (ids : ValidationIDs) (cfg : lvm.Config) (cluster : Cluster) (host : Host)
        (inv : Inventory) (n : Int),
      host.Inventory = IncomingInventory.parsed inv →
      lvm.getValidDiskCount cfg inv.Disks host.InstallationDiskID = (n, none) →
      1 ≤ n →
      inv.CPU.Count = cfg.LvmCPUPerHost →
      inv.Memory.UsableBytes = MibToBytes cfg.LvmMemoryPerHostMiB →
      lvm.ValidateHost ids cfg cluster host =
        ({ Status := ValidationStatus.Success, ValidationId := ids.hostID, Reasons := [] },
         none)) ∧
    (∀ (ids : ValidationIDs) (cfg : odflvm.Config) (cluster : Cluster) (host : Host)
        (inv : Inventory),
      host.Inventory = IncomingInventory.parsed inv →
      1 ≤ odflvm.getValidDiskCount inv.Disks host.InstallationDiskID →
      inv.CPU.Count = cfg.ODFLVMCPUPerHost →
      inv.Memory.UsableBytes = MibToBytes cfg.ODFLVMMemoryMiBPerHost →
      odflvm.ValidateHost ids cfg cluster host =
        ({ Status := ValidationStatus.Success, ValidationId := ids.hostID, Reasons := [] },
         none)) := by
  constructor
  · intro ids cfg cluster host inv n hInv hdc hn hcpu hmem
    exact lvm_ValidateHost_success_of_thresholds ids cfg cluster host inv n hInv hdc hn
      hcpu.symm.le hmem.symm.le
  · intro ids cfg cluster host inv hInv hn hcpu hmem
    exact odflvm_ValidateHost_success_of_thresholds ids cfg cluster host inv hInv hn
      hcpu.symm.le hmem.symm.le

/-- C6 witness: the fixture host with exactly 1 core and exactly
1200 MiB of usable memory against a 1-core/1200-MiB requirement yields
`Success` in both variants. -/
theorem claim_C6_witness :
    lvm.ValidateHost ids0 cfgL cluster0 hostBoundary =
      ({ Status := ValidationStatus.Success, ValidationId := ids0.hostID, Reasons := [] },
       none) ∧
    odflvm.ValidateHost ids0 cfgO cluster0 hostBoundary =
      ({ Status := ValidationStatus.Success, ValidationId := ids0.hostID, Reasons := [] },
       none) :=
  ⟨claim_C6_boundary_equality_success.1 ids0 cfgL cluster0 hostBoundary invBoundary 1 rfl rfl
      (by decide) (by decide) (by decide),
   claim_C6_boundary_equality_success.2 ids0 cfgO cluster0 hostBoundary invBoundary rfl
      (by decide) (by decide) (by decide)⟩

/-- C7 counterexample: the odflvm `ValidateCluster` on a non-single-node
cluster returns a `Failure` verdict whose reasons list is empty, so
"reasons is empty iff status is Success" fails on this verdict. -/
theorem claim_C7_counterexample :
    ¬ ((odflvm.ValidateCluster ids0 clusterFull).1.Reasons = [] ↔
      (odflvm.ValidateCluster ids0 clusterFull).1.Status = ValidationStatus.Success) := by
  decide

/-- C7 amended: reasons are empty iff the status is `Success` for every
verdict of the lvm variant's `ValidateHost` and `ValidateCluster` and of
the odflvm variant's `ValidateHost`; the odflvm `ValidateCluster`,
however, returns an empty reasons list on every verdict, its
non-single-node `Failure` included. -/
theorem claim_C7_reasons_empty_iff_success_amended :
    (∀ (ids : ValidationIDs) (cfg : lvm.Config) (cluster : Cluster) (host : Host),
      ((lvm.ValidateHost ids cfg cluster host).1.Reasons = [] ↔
        (lvm.ValidateHost ids cfg cluster host).1.Status = ValidationStatus.Success)) ∧
    (∀ (ids : ValidationIDs) (cluster : Cluster),
      ((lvm.ValidateCluster ids cluster).1.Reasons = [] ↔
        (lvm.ValidateCluster ids cluster).1.Status = ValidationStatus.Success)) ∧
    (∀ (ids : ValidationIDs) (cfg : odflvm.Config) (cluster : Cluster) (host : Host),
      ((odflvm.ValidateHost ids cfg cluster host).1.Reasons = [] ↔
        (odflvm.ValidateHost ids cfg cluster host).1.Status = ValidationStatus.Success)) ∧
    (∀ (ids : ValidationIDs) (cluster : Cluster),
      (odflvm.ValidateCluster ids cluster).1.Reasons = []) := by
  refine ⟨?_, ?_, ?_, ?_⟩
  · intro ids cfg cluster host
    rcases host with ⟨hID, instID, hinv⟩
    unfold lvm.ValidateHost
    cases hinv with
    | empty => simp [IncomingInventory.isEmptyStr]
    | unparsable e => simp [IncomingInventory.isEmptyStr, UnmarshalInventory]
    | parsed inv =>
        rcases hdc : lvm.getValidDiskCount cfg inv.Disks instID with ⟨n, e⟩
        simp only [IncomingInventory.isEmptyStr, UnmarshalInventory, hdc]
        cases e
        all_goals
          simp [lvm.GetHostRequirements, lvm.GetPreflightRequirements]
        split_ifs <;> simp
  · intro ids cluster
    rcases cluster with ⟨cID, mode, ver, hosts⟩
    cases mode <;> cases ver <;>
      simp only [lvm.ValidateCluster, lvm.ValidateClusterAux, IsSingleNodeCluster,
        NewVersion, lvm.LvmMinOpenshiftVersion] <;>
      split_ifs <;> simp_all
  · intro ids cfg cluster host
    rcases host with ⟨hID, instID, hinv⟩
    unfold odflvm.ValidateHost
    cases hinv with
    | empty => simp [IncomingInventory.isEmptyStr]
    | unparsable e => simp [IncomingInventory.isEmptyStr, UnmarshalInventory]
    | parsed inv =>
        simp only [IncomingInventory.isEmptyStr, UnmarshalInventory,
          odflvm.GetHostRequirements]
        split_ifs <;> simp_all
  · intro ids cluster
    unfold odflvm.ValidateCluster
    split_ifs <;> simp

/-- C8 counterexample: a single-node cluster whose version string fails
to parse makes the lvm `ValidateCluster` return a `Failure` verdict with
a nil error, so version-parse failures do not propagate an error to the
caller. -/
theorem claim_C8_counterexample :
    NewVersion clusterBadVersion.OpenshiftVersion =
      Except.error "Malformed version: foo" ∧
    (lvm.ValidateCluster ids0 clusterBadVersion).1.Status = ValidationStatus.Failure ∧
    (lvm.ValidateCluster ids0 clusterBadVersion).2 = none :=
  ⟨rfl, rfl, rfl⟩

/-- C8 amended: the validators return a non-nil error exactly when the
inventory is present but unparsable; version-parse failures in
`ValidateCluster`, unmet-requirement failures and the `Pending` case all
return a nil error alongside the verdict. (The requirements-retrieval
error branch of `ValidateHost` also propagates its error, but the
requirement calculators of both variants never fail, so that branch is
unreachable.) -/
theorem claim_C8_error_propagation_amended :
    (∀ (ids : ValidationIDs) (cfg : lvm.Config) (cluster : Cluster) (host : Host),
      ((lvm.ValidateHost ids cfg cluster host).2 ≠ none ↔
        ∃ e, host.Inventory = IncomingInventory.unparsable e)) ∧
    (∀ (ids : ValidationIDs) (cfg : odflvm.Config) (cluster : Cluster) (host : Host),
      ((odflvm.ValidateHost ids cfg cluster host).2 ≠ none ↔
        ∃ e, host.Inventory = IncomingInventory.unparsable e)) ∧
    (∀ (ids : ValidationIDs) (minVS : VersionString) (cluster : Cluster),
      (lvm.ValidateClusterAux ids minVS cluster).2 = none) ∧
    (∀ (ids : ValidationIDs) (cluster : Cluster),
      (odflvm.ValidateCluster ids cluster).2 = none) := by
  refine ⟨?_, ?_, ?_, ?_⟩
  · intro ids cfg cluster host
    rcases host with ⟨hID, instID, hinv⟩
    unfold lvm.ValidateHost
    cases hinv with
    | empty => simp [IncomingInventory.isEmptyStr]
    | unparsable e => simp [IncomingInventory.isEmptyStr, UnmarshalInventory]
    | parsed inv =>
        rcases hdc : lvm.getValidDiskCount cfg inv.Disks instID with ⟨n, e⟩
        simp only [IncomingInventory.isEmptyStr, UnmarshalInventory, hdc]
        cases e
        all_goals
          simp [lvm.GetHostRequirements, lvm.GetPreflightRequirements]
        split_ifs <;> simp
  · intro ids cfg cluster host
    rcases host with ⟨hID, instID, hinv⟩
    unfold odflvm.ValidateHost
    cases hinv with
    | empty => simp [IncomingInventory.isEmptyStr]
    | unparsable e => simp [IncomingInventory.isEmptyStr, UnmarshalInventory]
    | parsed inv =>
        simp only [IncomingInventory.isEmptyStr, UnmarshalInventory,
          odflvm.GetHostRequirements]
        split_ifs <;> simp_all
  · intro ids minVS cluster
    rcases cluster with ⟨cID, mode, ver, hosts⟩
    cases mode <;> cases ver <;> cases minVS <;>
      simp only [lvm.ValidateClusterAux, IsSingleNodeCluster, NewVersion] <;>
      split_ifs <;> simp_all
  · intro ids cluster
    unfold odflvm.ValidateCluster
    split_ifs <;> simp

/-- C9: when the lvm `ValidateCluster` fails on a single-node cluster
because the platform version or the minimum-version constant does not
parse, the verdict carries the host validation ID, while every other
`ValidateCluster` verdict carries the cluster validation ID. -/
theorem claim_C9_parse_failure_host_validation_id :
    ∀ (ids : ValidationIDs) (minVS : VersionString) (cluster : Cluster),
      (∀ e, IsSingleNodeCluster cluster = true →
        NewVersion cluster.OpenshiftVersion = Except.error e →
        (lvm.ValidateClusterAux ids minVS cluster).1.ValidationId = ids.hostID) ∧
      (∀ v e, IsSingleNodeCluster cluster = true →
        NewVersion cluster.OpenshiftVersion = Except.ok v →
        NewVersion minVS = Except.error e →
        (lvm.ValidateClusterAux ids minVS cluster).1.ValidationId = ids.hostID) ∧
      ((IsSingleNodeCluster cluster = false ∨
          (∃ v minV, NewVersion cluster.OpenshiftVersion = Except.ok v ∧
            NewVersion minVS = Except.ok minV)) →
        (lvm.ValidateClusterAux ids minVS cluster).1.ValidationId = ids.clusterID) := by
  intro ids minVS cluster
  rcases cluster with ⟨cID, mode, ver, hosts⟩
  cases mode <;> cases ver <;> cases minVS <;>
    simp only [lvm.ValidateClusterAux, IsSingleNodeCluster, NewVersion] <;>
    split_ifs <;> simp_all

/-- C9 witness: the single-node fixture cluster with a malformed version
gets a verdict carrying the host validation ID, while the multi-node
fixture cluster's verdict carries the cluster validation ID. -/
theorem claim_C9_witness :
    (lvm.ValidateClusterAux ids0 lvm.LvmMinOpenshiftVersion clusterBadVersion).1.ValidationId =
      ids0.hostID ∧
    (lvm.ValidateClusterAux ids0 lvm.LvmMinOpenshiftVersion clusterFull).1.ValidationId =
      ids0.clusterID :=
  ⟨(claim_C9_parse_failure_host_validation_id ids0 lvm.LvmMinOpenshiftVersion
      clusterBadVersion).1 "Malformed version: foo" rfl rfl,
   (claim_C9_parse_failure_host_validation_id ids0 lvm.LvmMinOpenshiftVersion
      clusterFull).2.2 (Or.inl rfl)⟩

/-- C10: `ValidateHost` of either variant returns the same verdict and
error for any two clusters, because the host requirements are computed
from configuration alone; likewise `GetHostRequirements` itself is
cluster-independent. -/
theorem claim_C10_host_verdict_cluster_independent :
    ∀ (ids : ValidationIDs) (cfgl : lvm.Config) (cfgo : odflvm.Config)
      (cluster1 cluster2 : Cluster) (host : Host),
      lvm.ValidateHost ids cfgl cluster1 host = lvm.ValidateHost ids cfgl cluster2 host ∧
      lvm.GetHostRequirements ids cfgl cluster1 host =
        lvm.GetHostRequirements ids cfgl cluster2 host ∧
      odflvm.ValidateHost ids cfgo cluster1 host = odflvm.ValidateHost ids cfgo cluster2 host ∧
      odflvm.GetHostRequirements cfgo cluster1 host =
        odflvm.GetHostRequirements cfgo cluster2 host := by
  intro ids cfgl cfgo cluster1 cluster2 host
  exact ⟨rfl, rfl, rfl, rfl⟩
